import Mathlib

/-!
Shallow embedding of `clone_and_setup.py`, a command-line utility that
clones a repository, sets repository-local git identity, runs the
dependency manager's install step, and optionally pushes the clone to a
second remote.  External processes, the filesystem and PATH lookups are
modelled by an explicit environment; the program is a state function that
accumulates the list of observable events (stdout/stderr prints, external
command invocations, and an interpreter traceback for an uncaught
exception).  Machine behaviour modelled: CPython 3.12 `urllib.parse` and
`pathlib` on a POSIX platform.
-/

namespace CloneSetup

/-- The Python exception values the script can raise
(`RuntimeError`, `ValueError`, `FileExistsError`). -/
inductive PyError where
  | runtimeError (msg : String)
  | valueError (msg : String)
  | fileExistsError (msg : String)
deriving DecidableEq

deriving instance DecidableEq for Except

/-- `str(exc)` for the exceptions above: just the message. -/
def PyError.message : PyError → String
  | .runtimeError m => m
  | .valueError m => m
  | .fileExistsError m => m

/-- Result of one external command (`subprocess.CompletedProcess` with
`capture_output=True, text=True`). -/
structure CmdResult where
  returncode : Int
  stdout : String
  stderr : String
deriving DecidableEq

/-- Observable events of a run: a line printed to stdout, a line printed
to stderr, an external command invocation (argument vector and working
directory), or the interpreter traceback printed to stderr when an
exception escapes `main` (the process then exits with status 1). -/
inductive Event where
  | print (line : String)
  | printErr (line : String)
  | exec (cmd : List String) (cwd : Option String)
  | uncaughtTraceback (e : PyError)
deriving DecidableEq

/-- Ambient environment: PATH lookup (`shutil.which tool` is not `None`),
filesystem existence (`Path.exists`), the behaviour of external commands
(`subprocess.run`), and path resolution (`str(Path(x).resolve())`). -/
structure Env where
  which : String → Bool
  pathExists : String → Bool
  exec : List String → Option String → CmdResult
  resolve : String → String

/-- Characters stripped by Python `str.strip()` with no arguments
(ASCII/Latin-1 whitespace; Unicode space categories beyond Latin-1 are
not modelled, they do not occur in the messages at issue). -/
def pyIsSpace (c : Char) : Bool :=
  c == ' ' || c == '\t' || c == '\n' || c == '\r' || c == '\x0b' || c == '\x0c' ||
  (decide ('\x1c' ≤ c) && decide (c ≤ '\x1f')) || c == '\x85' || c == '\xa0'

/-- Python `s.strip()`. -/
def pyStrip (s : String) : String :=
  String.mk (((s.data.dropWhile pyIsSpace).reverse.dropWhile pyIsSpace).reverse)

/-- Python `s.rstrip("/")`. -/
def pyRstripSlashes (s : String) : String :=
  String.mk ((s.data.reverse.dropWhile (fun c => c == '/')).reverse)

/-- `urllib.parse.scheme_chars`: ASCII letters, digits, `+`, `-`, `.`. -/
def isSchemeChar (c : Char) : Bool :=
  c.isAlpha || c.isDigit || c == '+' || c == '-' || c == '.'

/-- `urlsplit` input scrubbing: strip leading C0-control-or-space
characters, then remove tab, CR and LF anywhere
(`_WHATWG_C0_CONTROL_OR_SPACE`, `_UNSAFE_URL_BYTES_TO_REMOVE`). -/
def scrubUrl (url : String) : List Char :=
  (url.data.dropWhile (fun c => decide (c ≤ ' '))).filter
    (fun c => !(c == '\t' || c == '\r' || c == '\n'))

/-- Scheme split in `urlsplit`: if the first `:` is preceded by an
ASCII-alphabetic first character and only scheme characters, the scheme
is that prefix lower-cased and the rest follows the colon; otherwise the
scheme is empty and the input is unchanged. -/
def splitScheme (l : List Char) : List Char × List Char :=
  match l.findIdx? (fun c => c == ':') with
  | none => ([], l)
  | some i =>
    if 0 < i ∧ (l.headD ' ').isAlpha ∧ (l.take i).all isSchemeChar then
      ((l.take i).map Char.toLower, l.drop (i + 1))
    else ([], l)

/-- The remainder of the URL once the scheme is removed. -/
def dropScheme (l : List Char) : List Char := (splitScheme l).2

/-- Netloc split in `urlsplit` (`_splitnetloc`): if the remainder starts
with `//`, the netloc is everything up to the first of `/`, `?`, `#`
after it, and the rest is the remainder from that delimiter on.  With no
`//` the netloc is empty and the input is unchanged. -/
def splitNetloc (l : List Char) : List Char × List Char :=
  if l.take 2 = ['/', '/'] then
    let rest := l.drop 2
    let i := rest.findIdx (fun c => c == '/' || c == '?' || c == '#')
    (rest.take i, rest.drop i)
  else ([], l)

/-- The remainder of the URL once the netloc is removed. -/
def dropNetloc (l : List Char) : List Char := (splitNetloc l).2

/-- Fragment and query removal: cut at the first `#`, then at the first `?`. -/
def dropFragmentQuery (l : List Char) : List Char :=
  (l.takeWhile (fun c => c != '#')).takeWhile (fun c => c != '?')

/-- Index of the last occurrence of `c` in `l` (meaningful when present). -/
def lastIdxOf (l : List Char) (c : Char) : Nat :=
  l.length - 1 - (l.reverse.findIdx (fun x => x == c))

/-- `urlparse`'s parameter split (`_splitparams`): cut at the first `;`
occurring at or after the last `/` (or anywhere, if there is no `/`). -/
def splitParamsPath (l : List Char) : List Char :=
  if l.contains '/' then
    match (l.drop (lastIdxOf l '/')).findIdx? (fun c => c == ';') with
    | none => l
    | some m => l.take (lastIdxOf l '/' + m)
  else
    match l.findIdx? (fun c => c == ';') with
    | none => l
    | some i => l.take i

/-- `urllib.parse.uses_params`: the schemes for which `urlparse` splits
a `;params` suffix off the path. -/
def uses_params : List String :=
  ["", "ftp", "hdl", "prospero", "http", "imap", "https", "shttp", "rtsp", "rtsps",
   "rtspu", "sip", "sips", "mms", "sftp", "tel"]

/-- The `path` component of `urllib.parse.urlparse(url)`: the `urlsplit`
path, with `;params` split off only when the scheme is in `uses_params`
and the path contains a `;`. -/
def urlparsePath (url : String) : String :=
  let sr := splitScheme (scrubUrl url)
  let l := dropFragmentQuery (dropNetloc sr.2)
  if uses_params.contains (String.mk sr.1) ∧ l.contains ';' then
    String.mk (splitParamsPath l)
  else String.mk l

/-- Python `s.split(sep)` for a one-character separator: the (possibly
empty) chunks between occurrences of `sep`. -/
def splitOnChar (sep : Char) : List Char → List (List Char)
  | [] => [[]]
  | c :: rest =>
    let r := splitOnChar sep rest
    if c = sep then [] :: r
    else (c :: r.headD []) :: r.tail

/-- Python `s.isascii()`: every code point is below 128. -/
def pyIsAsciiL (l : List Char) : Bool := l.all (fun c => decide (c.toNat ≤ 127))

/-- `ipaddress._BaseV6._HEX_DIGITS` membership: an ASCII hex digit. -/
def isHexDigitChar (c : Char) : Bool :=
  c.isDigit || (decide ('a' ≤ c) && decide (c ≤ 'f')) || (decide ('A' ≤ c) && decide (c ≤ 'F'))

/-- Numeric value of an ASCII decimal-digit string. -/
def digitsVal (l : List Char) : Nat := l.foldl (fun a c => a * 10 + (c.toNat - 48)) 0

/-- `ipaddress.IPv4Address._parse_octet` succeeds: non-empty, ASCII
digits only, at most 3 characters, no leading zero (except `0` itself),
value at most 255. -/
def octetValid (o : List Char) : Bool :=
  !o.isEmpty && o.all Char.isDigit && decide (o.length ≤ 3) &&
  (decide (o = ['0']) || decide (o.headD '0' ≠ '0')) &&
  decide (digitsVal o ≤ 255)

/-- `ipaddress.IPv4Address(s)` succeeds: no `/`, non-empty, exactly four
valid octets separated by `.`. -/
def ipv4AddressValid (l : List Char) : Bool :=
  !l.contains '/' && !l.isEmpty &&
  (let octets := splitOnChar '.' l
   decide (octets.length = 4) && octets.all octetValid)

/-- `ipaddress._BaseV6._parse_hextet` succeeds: non-empty (the empty
string fails `int(s, 16)`), at most 4 characters, hex digits only. -/
def hextetValid (h : List Char) : Bool :=
  !h.isEmpty && decide (h.length ≤ 4) && h.all isHexDigitChar

/-- The part-level checks of `ipaddress._BaseV6._ip_int_from_string`
after the optional IPv4-suffix conversion: at most 9 parts; at most one
empty interior part (the `::` compression); a leading or trailing `:`
only as part of a `::` at the corresponding end; at least one group
actually compressed; all parsed hextets valid (with no `::`, exactly 8
parts, all valid hextets). -/
def ipv6PartsValid (parts : List (List Char)) : Bool :=
  let n := parts.length
  if 9 < n then false
  else
    let interior := (parts.drop 1).dropLast
    let empties := interior.countP (fun p => p.isEmpty)
    if 1 < empties then false
    else if empties = 1 then
      let skipIdx := 1 + interior.findIdx (fun p => p.isEmpty)
      let headEmpty := (parts.headD []).isEmpty
      let lastEmpty := (parts.getLastD []).isEmpty
      if headEmpty && decide (skipIdx ≠ 1) then false
      else
        let partsLo0 := n - skipIdx - 1
        if lastEmpty && decide (partsLo0 ≠ 1) then false
        else
          let partsHi := if headEmpty then skipIdx - 1 else skipIdx
          let partsLo := if lastEmpty then partsLo0 - 1 else partsLo0
          if 7 < partsHi + partsLo then false
          else
            (parts.take partsHi).all hextetValid &&
            (parts.drop (n - partsLo)).all hextetValid
    else
      decide (n = 8) && parts.all hextetValid

/-- `ipaddress._BaseV6._ip_int_from_string` succeeds: non-empty, at least
3 colon-separated parts, an IPv4-style final part converted to two hextet
groups (failing if it is not a valid IPv4 address), then the part-level
checks. -/
def ipv6IntValid (addr : List Char) : Bool :=
  if addr.isEmpty then false
  else
    let parts0 := splitOnChar ':' addr
    if parts0.length < 3 then false
    else
      let last := parts0.getLastD []
      if last.contains '.' then
        ipv4AddressValid last && ipv6PartsValid (parts0.dropLast ++ [['0'], ['0']])
      else ipv6PartsValid parts0

/-- `ipaddress.IPv6Address(s)` succeeds: no `/`; an optional `%scope`
suffix whose scope id is non-empty and `%`-free; the address part valid. -/
def ipv6AddressValid (l : List Char) : Bool :=
  if l.contains '/' then false
  else if l.contains '%' then
    let addr := l.takeWhile (fun c => c != '%')
    let scope := (l.dropWhile (fun c => c != '%')).drop 1
    !scope.isEmpty && !scope.contains '%' && ipv6IntValid addr
  else ipv6IntValid l

/-- The IPvFuture check of `urllib.parse._check_bracketed_host`: the
regex `v[a-fA-F0-9]+\..+` anchored at both ends (`.` not matching a
newline). -/
def ipvFutureValid (l : List Char) : Bool :=
  match l with
  | 'v' :: rest =>
    let hexs := rest.takeWhile isHexDigitChar
    let after := rest.drop hexs.length
    !hexs.isEmpty && decide (after.headD ' ' = '.') &&
      !(after.drop 1).isEmpty && (after.drop 1).all (fun c => c != '\n')
  | _ => false

/-- `netloc.partition("[")[2].partition("]")[0]`: the text between the
first `[` and the following `]`. -/
def bracketedHost (netloc : List Char) : List Char :=
  ((netloc.dropWhile (fun c => c != '[')).drop 1).takeWhile (fun c => c != ']')

/-- `urllib.parse._check_bracketed_host`: a `v`-initial host must match
the IPvFuture form; otherwise the host must be a valid IP address that is
IPv6, not IPv4.  (CPython interpolates the repr of the host into the
last message; that text is abbreviated here.) -/
def checkBracketedHost (hostname : List Char) : Option PyError :=
  if hostname.headD ' ' = 'v' then
    if ipvFutureValid hostname then none
    else some (.valueError "IPvFuture address is invalid")
  else if ipv4AddressValid hostname then
    some (.valueError "An IPv4 address cannot be in brackets")
  else if ipv6AddressValid hostname then none
  else some (.valueError "does not appear to be an IPv4 or IPv6 address")

/-- The authority validation of `urlsplit`: an unbalanced bracket raises
`ValueError("Invalid IPv6 URL")`; a balanced bracket pair triggers
`_check_bracketed_host` on the bracketed text. -/
def validateNetloc (netloc : List Char) : Option PyError :=
  if (netloc.contains '[' && !netloc.contains ']') ||
     (netloc.contains ']' && !netloc.contains '[') then
    some (.valueError "Invalid IPv6 URL")
  else if netloc.contains '[' && netloc.contains ']' then
    checkBracketedHost (bracketedHost netloc)
  else none

/-- The netloc (authority) component of `urlsplit(url)`. -/
def urlNetloc (url : String) : List Char :=
  (splitNetloc (dropScheme (scrubUrl url))).1

/-- The exception raised by `urllib.parse.urlparse(url)`, if any.
`urlsplit`'s remaining raising check, `_checknetloc`, returns at once
for an empty or all-ASCII netloc and can raise only when the NFKC
normalization of a non-ASCII netloc introduces a delimiter; NFKC is not
modelled, so theorems that read a `none` here as "the program's parse
succeeds" carry an ASCII-netloc hypothesis. -/
def urlparseExc (url : String) : Option PyError :=
  validateNetloc (urlNetloc url)

/-- Python `s.split("/")` on a character list: the (possibly empty)
chunks between `/` separators. -/
def splitOnSlash : List Char → List (List Char)
  | [] => [[]]
  | c :: rest =>
    let r := splitOnSlash rest
    if c = '/' then [] :: r
    else (c :: r.headD []) :: r.tail

/-- The component list of `pathlib.PurePosixPath(s)`: split on `/`,
dropping empty and `.` entries (as `pathlib`'s parser does). -/
def pathSegs (s : String) : List String :=
  ((splitOnSlash s.data).map String.mk).filter (fun c => c != "" && c != ".")

/-- `pathlib.PurePosixPath(s).name`: the last component, or `""`. -/
def pathName (s : String) : String := (pathSegs s).getLastD ""

/-- Python `s.endswith(suffix)`. -/
def pyEndsWith (s suffix : String) : Bool := suffix.data.isSuffixOf s.data

/-- Python `s[:-n]` for `0 < n ≤ len(s)`: drop the last `n` characters. -/
def pyDropRight (s : String) (n : Nat) : String :=
  String.mk (s.data.take (s.data.length - n))

/-- The part of `derive_repo_dir` that acts on the parsed URL path:
`tail = Path(path.rstrip("/")).name`, raise `ValueError` when empty,
strip a trailing `.git`, raise `ValueError` when empty after stripping
(source lines 50-57). -/
def deriveFromPath (path : String) : Except PyError String :=
  let tail := pathName (pyRstripSlashes path)
  if tail = "" then
    .error (.valueError "Could not derive repository name from URL")
  else
    let tail2 := if pyEndsWith tail ".git" then pyDropRight tail 4 else tail
    if tail2 = "" then
      .error (.valueError "Repository name resolved to empty after stripping .git")
    else .ok tail2

/-- `derive_repo_dir` (source lines 48-57): parse the URL with `urlparse`
(whose authority validation can raise `ValueError`, which propagates out
of `derive_repo_dir`), then derive the directory name from the path
component. -/
def derive_repo_dir (repo_url : String) : Except PyError String :=
  match urlparseExc repo_url with
  | some e => .error e
  | none => deriveFromPath (urlparsePath repo_url)

example : derive_repo_dir "https://example.com/org/project.git" = .ok "project" := by decide
example : derive_repo_dir "https://example.com/org/project/" = .ok "project" := by decide
example : derive_repo_dir "https://example.com" =
  .error (.valueError "Could not derive repository name from URL") := by decide
example : derive_repo_dir "https://example.com/.git" =
  .error (.valueError "Repository name resolved to empty after stripping .git") := by decide
example : derive_repo_dir "https://x/o/p.git" = .ok "p" := by decide
example : derive_repo_dir "https://x/o/." = .ok "o" := by decide
example : derive_repo_dir "." =
  .error (.valueError "Could not derive repository name from URL") := by decide
example : derive_repo_dir "http://[::1/x.git" = .error (.valueError "Invalid IPv6 URL") := by decide
example : derive_repo_dir "http://]::1/x.git" = .error (.valueError "Invalid IPv6 URL") := by decide
example : derive_repo_dir "http://[::1]/x.git" = .ok "x" := by decide
example : derive_repo_dir "http://[::ffff:1.2.3.4]/x.git" = .ok "x" := by decide
example : derive_repo_dir "http://[fe80::1%25eth0]/x.git" = .ok "x" := by decide
example : derive_repo_dir "http://[127.0.0.1]/x.git" =
  .error (.valueError "An IPv4 address cannot be in brackets") := by decide
example : derive_repo_dir "http://[v1.future]/x.git" = .ok "x" := by decide
example : derive_repo_dir "http://[vzz]/x.git" =
  .error (.valueError "IPvFuture address is invalid") := by decide
example : derive_repo_dir "http://[abc]/x.git" =
  .error (.valueError "does not appear to be an IPv4 or IPv6 address") := by decide
example : urlNetloc "https://user@example.com:443/x" = "user@example.com:443".data := by decide

/-- The program monad: Python exception propagation plus the accumulating
event trace.  A computation maps the trace so far to an `Except` outcome
and the extended trace. -/
def M (α : Type) : Type := List Event → Except PyError α × List Event

/-- Normal completion (`return` / falling through). -/
def M.pure {α : Type} (a : α) : M α := fun evs => (.ok a, evs)

/-- Sequencing: an exception aborts the rest, the trace is kept. -/
def M.bind {α β : Type} (x : M α) (f : α → M β) : M β := fun evs =>
  match x evs with
  | (.ok a, evs') => f a evs'
  | (.error e, evs') => (.error e, evs')

instance : Monad M where
  pure := M.pure
  bind := M.bind

/-- `raise e`. -/
def M.throw {α : Type} (e : PyError) : M α := fun evs => (.error e, evs)

/-- `try: x except Exception as e: h e` (all modelled errors are
`Exception` subclasses, so the handler receives every raised error). -/
def M.tryCatch {α : Type} (x : M α) (h : PyError → M α) : M α := fun evs =>
  match x evs with
  | (.ok a, evs') => (.ok a, evs')
  | (.error e, evs') => h e evs'

/-- Record one observable event. -/
def record (e : Event) : M Unit := fun evs => (.ok (), evs ++ [e])

/-- Python `" ".join(cmd)`. -/
def joinSpace : List String → String
  | [] => ""
  | [s] => s
  | s :: rest => s ++ " " ++ joinSpace rest

/-- The message of the `RuntimeError` raised by `ensure_tool`
(source line 45). -/
def toolMissingMsg (tool : String) : String :=
  "Required tool \x27" ++ tool ++ "\x27 is not installed or not on PATH"

/-- `ensure_tool` (source lines 43-45): raise `RuntimeError` when the tool
is not on the PATH.  (`shutil.which` is a pure PATH lookup, not an
external command invocation.) -/
def ensure_tool (env : Env) (tool : String) : M Unit :=
  if env.which tool then Pure.pure ()
  else M.throw (.runtimeError (toolMissingMsg tool))

/-- The diagnostic message built by `run` on a non-zero exit status:
the joined command line, then the stripped stdout when non-empty, then
the stripped stderr when non-empty (source lines 68-75). -/
def failMsg (cmd : List String) (r : CmdResult) : String :=
  let stdout := pyStrip r.stdout
  let stderr := pyStrip r.stderr
  let msg := "Command failed: " ++ joinSpace cmd
  let msg := if stdout ≠ "" then msg ++ "\nstdout:\n" ++ stdout else msg
  if stderr ≠ "" then msg ++ "\nstderr:\n" ++ stderr else msg

/-- `run` (source lines 60-76): invoke the external command (recorded in
the trace whatever its outcome), then raise `RuntimeError` with the
diagnostic message when the exit status is non-zero. -/
def run (env : Env) (cmd : List String) (cwd : Option String) : M Unit := fun evs =>
  let r := env.exec cmd cwd
  if r.returncode ≠ 0 then
    (.error (.runtimeError (failMsg cmd r)), evs ++ [.exec cmd cwd])
  else
    (.ok (), evs ++ [.exec cmd cwd])

/-- `str(dest / ".git")` for an already-resolved destination path. -/
def joinDotGit (dest : String) : String :=
  if pyEndsWith dest "/" then dest ++ ".git" else dest ++ "/.git"

/-- The mirror-clone command line (source line 83). -/
def cloneCmd (repo_url dest : String) : List String :=
  ["git", "clone", "--mirror", repo_url, joinDotGit dest]

/-- The bare-to-normal conversion command line (source line 85). -/
def coreBareCmd : List String := ["git", "config", "--bool", "core.bare", "false"]

/-- The checkout command line (source line 87). -/
def checkoutCmd : List String := ["git", "checkout"]

/-- The `user.name` configuration command line (source line 91). -/
def cfgNameCmd (n : String) : List String := ["git", "config", "user.name", n]

/-- The `user.email` configuration command line (source line 92). -/
def cfgEmailCmd (e : String) : List String := ["git", "config", "user.email", e]

/-- The dependency-install command line (source line 96). -/
def pdmInstallCmd : List String := ["pdm", "install"]

/-- The remote registration command line (source line 102). -/
def remoteAddCmd (target : String) : List String :=
  ["git", "remote", "add", "target", target]

/-- The branch-push command line (source line 105). -/
def pushHeadsCmd : List String := ["git", "push", "target", "refs/heads/*:refs/heads/*"]

/-- The tag-push command line (source line 106). -/
def pushTagsCmd : List String := ["git", "push", "target", "refs/tags/*:refs/tags/*"]

/-- `clone_repo` (source lines 79-87): raise `FileExistsError` when the
destination exists, else mirror-clone, convert to a non-bare repository,
and check out. -/
def clone_repo (env : Env) (repo_url : String) (dest : String) : M Unit := do
  if env.pathExists dest then
    M.throw (.fileExistsError ("Destination already exists: " ++ dest))
  run env (cloneCmd repo_url dest) none
  run env coreBareCmd (some dest)
  run env checkoutCmd (some dest)

/-- `set_git_config` (source lines 90-92): set `user.name` and
`user.email` with the cloned repository as working directory. -/
def set_git_config (env : Env) (repo_dir user_name user_email : String) : M Unit := do
  run env (cfgNameCmd user_name) (some repo_dir)
  run env (cfgEmailCmd user_email) (some repo_dir)

/-- `run_pdm_install` (source lines 95-96). -/
def run_pdm_install (env : Env) (repo_dir : String) : M Unit :=
  run env pdmInstallCmd (some repo_dir)

/-- `push_to_github` (source lines 99-106): add the target remote, then
push all branch refs, then all tag refs. -/
def push_to_github (env : Env) (repo_dir target_url : String) : M Unit := do
  run env (remoteAddCmd target_url) (some repo_dir)
  run env pushHeadsCmd (some repo_dir)
  run env pushTagsCmd (some repo_dir)

/-- Parsed invocation arguments (after `parse_args`, source lines 14-40;
`dest` and `push_to` default to `None`).  Usage errors are handled by
`argparse` before `main`'s body runs and are not modelled. -/
structure Args where
  repo_url : String
  user_name : String
  user_email : String
  dest : Option String
  push_to : Option String
deriving DecidableEq

/-- Python truthiness of an `Optional[str]`: `None` and `""` are falsy. -/
def pyTruthy (o : Option String) : Bool := o.getD "" ≠ ""

/-- Source lines 115-116: `Path(args.dest) if args.dest else
derive_repo_dir(args.repo_url)`, then `.resolve()` (resolution modelled
by the opaque `env.resolve`, applied to whichever branch was taken). -/
def resolvedRepoDir (env : Env) (args : Args) : Except PyError String :=
  if pyTruthy args.dest then .ok (env.resolve (args.dest.getD ""))
  else (derive_repo_dir args.repo_url).map env.resolve

/-- The body of the `try:` block in `main` (source lines 118-133):
clone, configure identity, install, optionally push, print `Done.`,
return `0`. -/
def mainBody (env : Env) (args : Args) (repo_dir : String) : M Int := do
  record (.print ("Cloning " ++ args.repo_url ++ " into " ++ repo_dir ++ " ..."))
  clone_repo env args.repo_url repo_dir
  record (.print "Setting local git user.name/email ...")
  set_git_config env repo_dir args.user_name args.user_email
  record (.print "Running `pdm install` ...")
  run_pdm_install env repo_dir
  if pyTruthy args.push_to then
    record (.print ("Pushing to " ++ args.push_to.getD "" ++ " (preserving commit history) ..."))
    push_to_github env repo_dir (args.push_to.getD "")
  record (.print "Done.")
  Pure.pure 0

/-- The `except Exception` handler in `main` (source lines 134-136):
print `Error: <message>` to stderr and return `1`. -/
def topHandler (exc : PyError) : M Int := do
  record (.printErr ("Error: " ++ exc.message))
  Pure.pure 1

/-- `main` (source lines 109-136).  Note that the tool checks and the
directory derivation (lines 112-116) run before the `try:` block, so
their exceptions propagate out of `main`. -/
def main (env : Env) (args : Args) : M Int := do
  ensure_tool env "git"
  ensure_tool env "pdm"
  match resolvedRepoDir env args with
  | .error e => M.throw e
  | .ok repo_dir => M.tryCatch (mainBody env args repo_dir) topHandler

/-- `sys.exit(main())` (source lines 139-140) plus interpreter behaviour:
a normal integer return is the exit status; an exception escaping `main`
makes the interpreter print a traceback to stderr and exit with status 1.
Result: (exit status, event trace). -/
def process (env : Env) (args : Args) : Int × List Event :=
  match main env args [] with
  | (.ok code, evs) => (code, evs)
  | (.error e, evs) => (1, evs ++ [.uncaughtTraceback e])

/-! Helper predicates, spec-side readings of claims, shared lemmas. -/

/-- `needle` occurs as a contiguous substring of `hay`. -/
def strContains (needle hay : String) : Prop :=
  ∃ l r : List Char, hay.data = l ++ needle.data ++ r

/-- Boolean prefix test on character lists. -/
def isPrefixB : List Char → List Char → Bool
  | [], _ => true
  | _ :: _, [] => false
  | a :: as, b :: bs => a == b && isPrefixB as bs

/-- Boolean contiguous-sublist test on character lists. -/
def isInfixB : List Char → List Char → Bool
  | n, [] => n.isEmpty
  | n, c :: t => isPrefixB n (c :: t) || isInfixB n t

/-- Boolean substring test (for concrete evaluation). -/
def strContainsB (needle hay : String) : Bool :=
  isInfixB needle.data hay.data

/-- Whether an event is an external command invocation. -/
def isExecEvent : Event → Bool
  | .exec _ _ => true
  | _ => false

/-- Whether an event is an external push invocation (`git push ...`). -/
def isPushInvocation : Event → Bool
  | .exec c _ => decide (c.take 2 = ["git", "push"])
  | _ => false

/-- Whether an event is one of the identity config-set invocations
(`git config user.name ...` or `git config user.email ...`). -/
def isIdentityConfig : Event → Bool
  | .exec c _ =>
    decide (c.take 3 = ["git", "config", "user.name"] ∨
            c.take 3 = ["git", "config", "user.email"])
  | _ => false

/-- Whether an event is the dependency-install invocation. -/
def isInstallInvocation : Event → Bool
  | .exec c _ => decide (c = pdmInstallCmd)
  | _ => false

/-- Whether an event is a stderr line carrying the uniform error prefix
`Error: `. -/
def isErrorPrefixedLine : Event → Bool
  | .printErr s => isPrefixB ("Error: ".data) s.data
  | _ => false

/-- Claim-side (C2, as stated) reading of directory derivation: ignore
trailing slashes of the parsed URL path, take the text after the last `/`
as the final path segment, strip a trailing `.git`, and fail with a
validation error whenever the segment is empty at either stage. -/
def lastSlashSegment (p : String) : String :=
  ((splitOnSlash p.data).map String.mk).getLastD ""

/-- Claim-side (C2, as stated) derivation. -/
def deriveSpecLiteral (repo_url : String) : Except PyError String :=
  let p := pyRstripSlashes (urlparsePath repo_url)
  let seg := lastSlashSegment p
  if seg = "" then
    .error (.valueError "Could not derive repository name from URL")
  else
    let seg2 := if pyEndsWith seg ".git" then pyDropRight seg 4 else seg
    if seg2 = "" then
      .error (.valueError "Repository name resolved to empty after stripping .git")
    else .ok seg2

/-- The events of a fully successful run up to (not including) the
optional push step and the final `Done.` print. -/
def baseEvents (args : Args) (d : String) : List Event :=
  [.print ("Cloning " ++ args.repo_url ++ " into " ++ d ++ " ..."),
   .exec (cloneCmd args.repo_url d) none,
   .exec coreBareCmd (some d),
   .exec checkoutCmd (some d),
   .print "Setting local git user.name/email ...",
   .exec (cfgNameCmd args.user_name) (some d),
   .exec (cfgEmailCmd args.user_email) (some d),
   .print "Running `pdm install` ...",
   .exec pdmInstallCmd (some d)]

/-- The events of a successful push step. -/
def pushEvents (args : Args) (d : String) : List Event :=
  [.print ("Pushing to " ++ args.push_to.getD "" ++ " (preserving commit history) ..."),
   .exec (remoteAddCmd (args.push_to.getD "")) (some d),
   .exec pushHeadsCmd (some d),
   .exec pushTagsCmd (some d)]

/-- Every external command issued by the step sequence exits with
status 0 (the commands actually issued depend on whether a push target
is present). -/
def allStepsSucceed (env : Env) (args : Args) (d : String) : Prop :=
  (env.exec (cloneCmd args.repo_url d) none).returncode = 0 ∧
  (env.exec coreBareCmd (some d)).returncode = 0 ∧
  (env.exec checkoutCmd (some d)).returncode = 0 ∧
  (env.exec (cfgNameCmd args.user_name) (some d)).returncode = 0 ∧
  (env.exec (cfgEmailCmd args.user_email) (some d)).returncode = 0 ∧
  (env.exec pdmInstallCmd (some d)).returncode = 0 ∧
  (pyTruthy args.push_to = true →
    (env.exec (remoteAddCmd (args.push_to.getD "")) (some d)).returncode = 0 ∧
    (env.exec pushHeadsCmd (some d)).returncode = 0 ∧
    (env.exec pushTagsCmd (some d)).returncode = 0)

@[simp] theorem bind_apply {α β : Type} (x : M α) (f : α → M β) (evs : List Event) :
    (x >>= f) evs = match x evs with
      | (.ok a, evs') => f a evs'
      | (.error e, evs') => (.error e, evs') := rfl

@[simp] theorem pure_apply {α : Type} (a : α) (evs : List Event) :
    (Pure.pure a : M α) evs = (.ok a, evs) := rfl

@[simp] theorem throw_apply {α : Type} (e : PyError) (evs : List Event) :
    (M.throw e : M α) evs = (.error e, evs) := rfl

@[simp] theorem tryCatch_apply {α : Type} (x : M α) (h : PyError → M α) (evs : List Event) :
    M.tryCatch x h evs = match x evs with
      | (.ok a, evs') => (.ok a, evs')
      | (.error e, evs') => h e evs' := rfl

@[simp] theorem record_apply (e : Event) (evs : List Event) :
    record e evs = (.ok (), evs ++ [e]) := rfl

@[simp] theorem run_apply (env : Env) (cmd : List String) (cwd : Option String)
    (evs : List Event) :
    run env cmd cwd evs =
      if (env.exec cmd cwd).returncode ≠ 0 then
        (.error (.runtimeError (failMsg cmd (env.exec cmd cwd))), evs ++ [.exec cmd cwd])
      else (.ok (), evs ++ [.exec cmd cwd]) := rfl

theorem strData_append (a b : String) : (a ++ b).data = a.data ++ b.data := rfl

theorem getLastD_mem {α : Type} (l : List α) : l ≠ [] → ∀ d, l.getLastD d ∈ l := by
  induction l with
  | nil => intro h; exact absurd rfl h
  | cons a t ih =>
    intro _ d
    by_cases ht : t = []
    · subst ht; simp [List.getLastD]
    · have h2 := ih ht a
      have : (a :: t).getLastD d = t.getLastD a := by
        cases t with
        | nil => exact absurd rfl ht
        | cons b t' => rfl
      rw [this]
      exact List.mem_cons_of_mem a h2

theorem pathSegs_ne_empty_str {s t : String} (h : t ∈ pathSegs s) : t ≠ "" := by
  have := (List.mem_filter.mp h).2
  intro he
  subst he
  simp at this

theorem pyRstrip_append_slash (p : String) : pyRstripSlashes (p ++ "/") = pyRstripSlashes p := by
  have hd : ("/" : String).data = ['/'] := rfl
  simp [pyRstripSlashes, strData_append, hd, List.reverse_append, List.dropWhile_cons]

/-! Claim theorems. -/

/-- C2, counterexample to the claim as stated.  The claim says derivation
"takes the final path segment" and fails only "whenever the segment is
empty".  For the locator `https://x/o/.` the final path segment of the
(trailing-slash-stripped) parsed path `/o/.` is `.`, which is non-empty
and carries no `.git` suffix, so the claimed procedure returns `.`
(as `deriveSpecLiteral` shows); the code instead returns `o`, because
`pathlib` drops `.` components.  Likewise for the locator `.` the final
segment is `.`, but the code fails with a validation error. -/
theorem c2_counterexample :
    lastSlashSegment (pyRstripSlashes (urlparsePath "https://x/o/.")) = "." ∧
    deriveSpecLiteral "https://x/o/." = .ok "." ∧
    derive_repo_dir "https://x/o/." = .ok "o" ∧
    lastSlashSegment (pyRstripSlashes (urlparsePath ".")) = "." ∧
    deriveSpecLiteral "." = .ok "." ∧
    derive_repo_dir "." =
      .error (.valueError "Could not derive repository name from URL") := by decide

theorem checkBracketedHost_valueError {h : List Char} {e : PyError}
    (hc : checkBracketedHost h = some e) : ∃ m, e = .valueError m := by
  unfold checkBracketedHost at hc
  repeat' split at hc
  all_goals simp_all
  all_goals exact ⟨_, hc.symm⟩

theorem validateNetloc_valueError {nl : List Char} {e : PyError}
    (hv : validateNetloc nl = some e) : ∃ m, e = .valueError m := by
  unfold validateNetloc at hv
  repeat' split at hv
  · exact ⟨_, (Option.some.injEq _ _).mp hv |>.symm⟩
  · exact checkBracketedHost_valueError hv
  · exact absurd hv (by simp)

/-- C2 (amended): derivation first parses the locator; a malformed
bracketed authority makes the parser raise a validation error (unbalanced
bracket: `Invalid IPv6 URL`; bracketed host that is an IPv4 address or
neither a valid IPv6 nor IPvFuture address: the corresponding
`ValueError`), which propagates.  When the parse succeeds (stated for
ASCII authorities; the parser's NFKC check concerns only non-ASCII
authorities and is outside the model), derivation acts on the parsed
path: it ignores any trailing slash; it takes the final path component
under POSIX path normalization (which drops empty and `.` segments); it
strips a trailing `.git` suffix; and it fails with a validation error
exactly when no component remains, or when the component becomes empty
after stripping `.git`.  The spec's examples hold. -/
theorem c2_directory_derivation :
    (∀ url e, urlparseExc url = some e →
      derive_repo_dir url = .error e ∧ ∃ m, e = .valueError m) ∧
    (∀ url, pyIsAsciiL (urlNetloc url) = true → urlparseExc url = none →
      derive_repo_dir url = deriveFromPath (urlparsePath url)) ∧
    (∀ p, deriveFromPath (p ++ "/") = deriveFromPath p) ∧
    (∀ p, pathSegs (pyRstripSlashes p) = [] →
      deriveFromPath p = .error (.valueError "Could not derive repository name from URL")) ∧
    (∀ p, pathSegs (pyRstripSlashes p) ≠ [] →
      deriveFromPath p =
        (let t := (pathSegs (pyRstripSlashes p)).getLastD ""
         if pyEndsWith t ".git" then
           (if pyDropRight t 4 = "" then
              .error (.valueError "Repository name resolved to empty after stripping .git")
            else .ok (pyDropRight t 4))
         else .ok t)) ∧
    derive_repo_dir "http://[::1/x.git" = .error (.valueError "Invalid IPv6 URL") ∧
    derive_repo_dir "http://[127.0.0.1]/x.git" =
      .error (.valueError "An IPv4 address cannot be in brackets") ∧
    derive_repo_dir "http://[::1]/x.git" = .ok "x" ∧
    derive_repo_dir "https://example.com/org/project.git" = .ok "project" ∧
    derive_repo_dir "https://example.com/org/project/" = .ok "project" ∧
    derive_repo_dir "https://example.com" =
      .error (.valueError "Could not derive repository name from URL") := by
  refine ⟨fun url e he => ⟨by simp [derive_repo_dir, he], validateNetloc_valueError he⟩,
    fun url _ hn => by simp [derive_repo_dir, hn],
    fun p => ?_, fun p h => ?_, fun p h => ?_,
    by decide, by decide, by decide, by decide, by decide, by decide⟩
  · simp [deriveFromPath, pyRstrip_append_slash]
  · simp [deriveFromPath, pathName, h]
  · have ht : (pathSegs (pyRstripSlashes p)).getLastD "" ≠ "" :=
      pathSegs_ne_empty_str (getLastD_mem _ h "")
    simp only [deriveFromPath, pathName]
    rw [if_neg ht]
    generalize hT : (pathSegs (pyRstripSlashes p)).getLastD "" = t at ht ⊢
    by_cases hg : pyEndsWith t ".git"
    · simp only [hg, if_true]
    · simp only [hg, Bool.false_eq_true, if_false, if_neg ht]

/-- Witness for C2: the non-emptiness hypothesis holds at the parsed path
`/org/project.git`, and the theorem instantiates to the expected name. -/
theorem c2_directory_derivation_witness :
    deriveFromPath "/org/project.git" = .ok "project" := by
  have h := c2_directory_derivation.2.2.2.2.1 "/org/project.git" (by decide)
  exact h.trans (by decide)

/-- A concrete fully-cooperative environment: every tool on the PATH, no
pre-existing destination, every external command exits 0, resolution
prepends `/w/`. -/
def envAllOk : Env := ⟨fun _ => true, fun _ => false, fun _ _ => ⟨0, "", ""⟩, fun s => "/w/" ++ s⟩

/-- The arguments of the spec's default end-to-end scenario:
`repo_url="https://x/o/p.git"`, `--user-name A`, `--user-email a@x`,
no `--dest`, no `--push-to`. -/
def argsC1 : Args := ⟨"https://x/o/p.git", "A", "a@x", none, none⟩

/-- C1: in the default end-to-end scenario with every external command
succeeding, the run produces exactly the clone-step commands into the
resolved directory `p` (mirror clone, bare-flag conversion, checkout, as
the spec's mirror-then-checkout clone step), then exactly the two identity
config-set invocations (`user.name A`, `user.email a@x`) with the cloned
directory as working directory, then exactly one install invocation
there, no push invocation, a final `Done.` print, and exit status 0. -/
theorem c1_default_end_to_end (env : Env) (hw : ∀ t, env.which t = true)
    (he : ∀ q, env.pathExists q = false)
    (hx : ∀ c w, (env.exec c w).returncode = 0) :
    process env argsC1 =
      (0, baseEvents argsC1 (env.resolve "p") ++ [.print "Done."]) ∧
    (process env argsC1).2.countP isIdentityConfig = 2 ∧
    (process env argsC1).2.countP isInstallInvocation = 1 ∧
    (process env argsC1).2.countP isPushInvocation = 0 := by
  have hd : derive_repo_dir "https://x/o/p.git" = .ok "p" := by decide
  have h1 : process env argsC1 =
      (0, baseEvents argsC1 (env.resolve "p") ++ [.print "Done."]) := by
    simp [process, main, resolvedRepoDir, mainBody, clone_repo, set_git_config,
      run_pdm_install, push_to_github, ensure_tool, hw, he, hx, hd, pyTruthy, argsC1,
      Except.map, baseEvents]
  refine ⟨h1, ?_, ?_, ?_⟩ <;>
    · rw [h1]
      simp [baseEvents, isIdentityConfig, isInstallInvocation, isPushInvocation,
        List.countP_cons, argsC1, cloneCmd, coreBareCmd, checkoutCmd, cfgNameCmd,
        cfgEmailCmd, pdmInstallCmd]

/-- Witness for C1 at the concrete cooperative environment. -/
theorem c1_default_end_to_end_witness :
    process envAllOk argsC1 =
      (0, baseEvents argsC1 (envAllOk.resolve "p") ++ [.print "Done."]) :=
  (c1_default_end_to_end envAllOk (fun _ => rfl) (fun _ => rfl) (fun _ _ => rfl)).1

/-- C5: when the resolved destination directory already exists, the run
raises `FileExistsError` (the pre-condition error, reporting the
destination) before any external command: the trace contains no `exec`
event at all (in particular no clone invocation), the error is reported,
and the exit status is 1. -/
theorem c5_preexisting_destination (env : Env) (args : Args) (d : String)
    (hg : env.which "git" = true) (hp : env.which "pdm" = true)
    (hr : resolvedRepoDir env args = .ok d) (he : env.pathExists d = true) :
    process env args =
      (1, [.print ("Cloning " ++ args.repo_url ++ " into " ++ d ++ " ..."),
           .printErr ("Error: Destination already exists: " ++ d)]) ∧
    (∀ evs, clone_repo env args.repo_url d evs =
      (.error (.fileExistsError ("Destination already exists: " ++ d)), evs)) ∧
    (process env args).2.filter isExecEvent = [] := by
  have hc : ∀ evs, clone_repo env args.repo_url d evs =
      (.error (.fileExistsError ("Destination already exists: " ++ d)), evs) := by
    intro evs
    simp [clone_repo, he]
  have h1 : process env args =
      (1, [.print ("Cloning " ++ args.repo_url ++ " into " ++ d ++ " ..."),
           .printErr ("Error: Destination already exists: " ++ d)]) := by
    simp [process, main, ensure_tool, hg, hp, hr, mainBody, hc, topHandler, PyError.message]
    have hs : ("Error: " : String) ++ "Destination already exists: " =
        "Error: Destination already exists: " := by decide
    rw [← String.append_assoc, hs]
  refine ⟨h1, hc, ?_⟩
  rw [h1]
  simp [isExecEvent]

/-- Witness for C5: a concrete environment whose filesystem already has
every path. -/
def envDestExists : Env := ⟨fun _ => true, fun _ => true, fun _ _ => ⟨0, "", ""⟩, fun s => "/w/" ++ s⟩

/-- Witness for C5 at the concrete environment with a pre-existing
destination. -/
theorem c5_preexisting_destination_witness :
    process envDestExists argsC1 =
      (1, [.print "Cloning https://x/o/p.git into /w/p ...",
           .printErr "Error: Destination already exists: /w/p"]) := by
  have h := (c5_preexisting_destination envDestExists argsC1 "/w/p" rfl rfl (by decide) rfl).1
  exact h.trans (by decide)

/-- C6: if the version-control client is missing from the search path the
run fails at once with the configuration error naming `git`; if it is
present but the dependency manager is missing, the run fails with the
configuration error naming `pdm`.  In both cases the trace contains no
external command invocation at all (the tool checks precede every
external invocation and every mutating action), and the exit status is 1.
The error messages name the missing tool. -/
theorem c6_tool_checks_precede :
    (∀ env args, env.which "git" = false →
      process env args = (1, [.uncaughtTraceback (.runtimeError (toolMissingMsg "git"))]) ∧
      (process env args).2.filter isExecEvent = []) ∧
    (∀ env args, env.which "git" = true → env.which "pdm" = false →
      process env args = (1, [.uncaughtTraceback (.runtimeError (toolMissingMsg "pdm"))]) ∧
      (process env args).2.filter isExecEvent = []) ∧
    strContainsB "git" (toolMissingMsg "git") = true ∧
    strContainsB "pdm" (toolMissingMsg "pdm") = true := by
  refine ⟨fun env args hg => ?_, fun env args hg hp => ?_, by decide, by decide⟩
  · have h1 : process env args =
        (1, [.uncaughtTraceback (.runtimeError (toolMissingMsg "git"))]) := by
      simp [process, main, ensure_tool, hg]
    exact ⟨h1, by simp [h1, isExecEvent]⟩
  · have h1 : process env args =
        (1, [.uncaughtTraceback (.runtimeError (toolMissingMsg "pdm"))]) := by
      simp [process, main, ensure_tool, hg, hp]
    exact ⟨h1, by simp [h1, isExecEvent]⟩

/-- Witness for C6: a concrete environment with an empty search path. -/
def envNoGit : Env := ⟨fun _ => false, fun _ => false, fun _ _ => ⟨0, "", ""⟩, fun s => s⟩

/-- Witness for C6 at the concrete tool-less environment. -/
theorem c6_tool_checks_precede_witness :
    process envNoGit argsC1 =
      (1, [.uncaughtTraceback (.runtimeError (toolMissingMsg "git"))]) :=
  (c6_tool_checks_precede.1 envNoGit argsC1 rfl).1

/-- C4, counterexample to the claim as stated.  The claim says every
error raised by any step, including configuration errors, is caught at
the top level and printed with the `Error: ` prefix.  With `git` missing
from the search path, the configuration error is raised by `ensure_tool`
before the `try:` block (source lines 112-113 precede line 118), so it
escapes `main` as an unhandled exception: the exit status is 1, but the
trace holds only the interpreter traceback and no `Error: `-prefixed
stderr line. -/
theorem c4_counterexample :
    process envNoGit argsC1 =
      (1, [.uncaughtTraceback (.runtimeError (toolMissingMsg "git"))]) ∧
    (process envNoGit argsC1).2.filter isErrorPrefixedLine = [] := by decide

/-- C4 (amended): every error raised inside the step sequence (clone,
identity configuration, install, push) is caught exactly once by the
top-level handler, printed to stderr with the uniform `Error: <message>`
prefix and converted to return value 1; the tool-availability and
directory-derivation errors are raised before the error boundary and
leave `main` as unhandled exceptions (the process still exits 1, via the
interpreter, but without the `Error: ` prefix). -/
theorem c4_error_boundary :
    (∀ env args d evs e evs',
      mainBody env args d evs = (.error e, evs') →
      M.tryCatch (mainBody env args d) topHandler evs =
        (.ok 1, evs' ++ [.printErr ("Error: " ++ e.message)])) ∧
    (∀ env args, env.which "git" = false →
      process env args = (1, [.uncaughtTraceback (.runtimeError (toolMissingMsg "git"))])) ∧
    (∀ env args, env.which "git" = true → env.which "pdm" = false →
      process env args = (1, [.uncaughtTraceback (.runtimeError (toolMissingMsg "pdm"))])) ∧
    (∀ env args e, env.which "git" = true → env.which "pdm" = true →
      resolvedRepoDir env args = .error e →
      process env args = (1, [.uncaughtTraceback e])) := by
  refine ⟨fun env args d evs e evs' hb => ?_, fun env args hg => ?_,
    fun env args hg hp => ?_, fun env args e hg hp hr => ?_⟩
  · simp [M.tryCatch, hb, topHandler]
  · simp [process, main, ensure_tool, hg]
  · simp [process, main, ensure_tool, hg, hp]
  · simp [process, main, ensure_tool, hg, hp, hr]

/-- Witness for C4: a pre-existing destination makes the clone step raise
inside the boundary; the handler prints the prefixed message and returns 1. -/
theorem c4_error_boundary_witness :
    M.tryCatch (mainBody envDestExists argsC1 "/w/p") topHandler [] =
      (.ok 1, [.print "Cloning https://x/o/p.git into /w/p ...",
               .printErr "Error: Destination already exists: /w/p"]) := by
  have h := c4_error_boundary.1 envDestExists argsC1 "/w/p" []
    (.fileExistsError "Destination already exists: /w/p")
    [.print "Cloning https://x/o/p.git into /w/p ..."] (by decide)
  exact h.trans (by decide)

/-- Arguments with `--push-to` supplied as the empty string. -/
def argsPushEmpty : Args := ⟨"https://x/o/p.git", "A", "a@x", none, some ""⟩

/-- C7, counterexample to the claim as stated.  The claim says the push
step executes if and only if a push target was supplied.  Supplying the
empty string as push target (`push_to = some ""`) is falsy in Python, so
the fully successful run issues the six base commands and no push (and no
remote-add) invocation at all, refuting the "if" direction. -/
theorem c7_counterexample :
    argsPushEmpty.push_to = some "" ∧
    (process envAllOk argsPushEmpty).1 = 0 ∧
    (process envAllOk argsPushEmpty).2.countP isExecEvent = 6 ∧
    (process envAllOk argsPushEmpty).2.filter isPushInvocation = [] := by decide

/-- C7 (amended): in a run whose external commands all succeed, the push
step executes if and only if a non-empty push target was supplied (an
empty-string target is treated as absent).  When it executes, it first
registers the target locator as the additional remote `target`, then
pushes all branch references (`refs/heads/*`), then all tag references
(`refs/tags/*`), in that order; the only push invocations are those two,
and neither ref-spec mentions pull-request references (`refs/pull`). -/
theorem c7_push_step (env : Env) (args : Args) (d : String)
    (hw : ∀ t, env.which t = true)
    (he : ∀ q, env.pathExists q = false)
    (hx : ∀ c w, (env.exec c w).returncode = 0)
    (hr : resolvedRepoDir env args = .ok d) :
    (pyTruthy args.push_to = true →
      process env args =
        (0, baseEvents args d ++ (pushEvents args d ++ [.print "Done."])) ∧
      (process env args).2.filter isPushInvocation =
        [.exec pushHeadsCmd (some d), .exec pushTagsCmd (some d)]) ∧
    (pyTruthy args.push_to = false →
      process env args = (0, baseEvents args d ++ [.print "Done."]) ∧
      (process env args).2.filter isPushInvocation = []) ∧
    strContainsB "refs/pull" "refs/heads/*:refs/heads/*" = false ∧
    strContainsB "refs/pull" "refs/tags/*:refs/tags/*" = false := by
  refine ⟨fun hp => ?_, fun hp => ?_, by decide, by decide⟩
  · have h1 : process env args =
        (0, baseEvents args d ++ (pushEvents args d ++ [.print "Done."])) := by
      simp [process, main, mainBody, clone_repo, set_git_config,
        run_pdm_install, push_to_github, ensure_tool, hw, he, hx, hr, hp,
        baseEvents, pushEvents]
    refine ⟨h1, ?_⟩
    rw [h1]
    simp [baseEvents, pushEvents, isPushInvocation, cloneCmd, coreBareCmd,
      checkoutCmd, cfgNameCmd, cfgEmailCmd, pdmInstallCmd, remoteAddCmd,
      pushHeadsCmd, pushTagsCmd]
  · have h1 : process env args = (0, baseEvents args d ++ [.print "Done."]) := by
      simp [process, main, mainBody, clone_repo, set_git_config,
        run_pdm_install, push_to_github, ensure_tool, hw, he, hx, hr, hp, baseEvents]
    refine ⟨h1, ?_⟩
    rw [h1]
    simp [baseEvents, isPushInvocation, cloneCmd, coreBareCmd, checkoutCmd,
      cfgNameCmd, cfgEmailCmd, pdmInstallCmd]

/-- Arguments with a non-empty push target. -/
def argsPush : Args := ⟨"https://x/o/p.git", "A", "a@x", none, some "https://t/q.git"⟩

/-- Witness for C7: with a non-empty push target and a cooperative
environment the push phase runs after the base phase. -/
theorem c7_push_step_witness :
    process envAllOk argsPush =
      (0, baseEvents argsPush "/w/p" ++ (pushEvents argsPush "/w/p" ++ [.print "Done."])) :=
  ((c7_push_step envAllOk argsPush "/w/p" (fun _ => rfl) (fun _ => rfl) (fun _ _ => rfl)
    (by decide)).1 (by decide)).1

/-- C9: the identity-configuration step issues only the two repo-scoped
config-set commands, each executed with the cloned repository directory
as working directory (the second only when the first succeeds; on its
failure the step stops after the first).  The command lines are exactly
`git config user.name <n>` and `git config user.email <e>`: the flag
positions carry no `--global` (or `--system`) scope flag, so only the
repository-local configuration is touched; the user-supplied values
occupy the final value position. -/
theorem c9_repo_scoped_identity (env : Env) (d n e : String) (evs : List Event) :
    ((set_git_config env d n e evs).2 = evs ++ [.exec (cfgNameCmd n) (some d)] ∨
     (set_git_config env d n e evs).2 =
       evs ++ [.exec (cfgNameCmd n) (some d), .exec (cfgEmailCmd e) (some d)]) ∧
    cfgNameCmd n = ["git", "config", "user.name", n] ∧
    cfgEmailCmd e = ["git", "config", "user.email", e] ∧
    "--global" ∉ (cfgNameCmd n).take 3 ∧ "--system" ∉ (cfgNameCmd n).take 3 ∧
    "--global" ∉ (cfgEmailCmd e).take 3 ∧ "--system" ∉ (cfgEmailCmd e).take 3 := by
  refine ⟨?_, rfl, rfl, by simp [cfgNameCmd], by simp [cfgNameCmd],
    by simp [cfgEmailCmd], by simp [cfgEmailCmd]⟩
  by_cases h1 : (env.exec (cfgNameCmd n) (some d)).returncode = 0
  · by_cases h2 : (env.exec (cfgEmailCmd e) (some d)).returncode = 0 <;>
      · right
        simp [set_git_config, h1, h2]
  · left
    simp [set_git_config, h1]

/-- Witness for C9 at concrete inputs: the identity command lines are the
expected repo-scoped ones. -/
theorem c9_repo_scoped_identity_witness :
    cfgNameCmd "A" = ["git", "config", "user.name", "A"] ∧
    cfgEmailCmd "a@x" = ["git", "config", "user.email", "a@x"] :=
  ⟨(c9_repo_scoped_identity envAllOk "/w/p" "A" "a@x" []).2.1,
   (c9_repo_scoped_identity envAllOk "/w/p" "A" "a@x" []).2.2.1⟩

/-- C10: an empty-string `--dest` override is falsy in Python, so the run
behaves exactly as if `--dest` were absent and the destination is derived
from the locator; the explicit-override branch is taken exactly for a
non-empty `--dest` value, which is resolved as given. -/
theorem c10_empty_dest_override (env : Env) (u n e : String) (pt : Option String) :
    process env ⟨u, n, e, some "", pt⟩ = process env ⟨u, n, e, none, pt⟩ ∧
    resolvedRepoDir env ⟨u, n, e, some "", pt⟩ = (derive_repo_dir u).map env.resolve ∧
    resolvedRepoDir env ⟨u, n, e, none, pt⟩ = (derive_repo_dir u).map env.resolve ∧
    (∀ dd, dd ≠ "" → ∀ pt2, resolvedRepoDir env ⟨u, n, e, some dd, pt2⟩ =
      .ok (env.resolve dd)) := by
  have hm : main env ⟨u, n, e, some "", pt⟩ = main env ⟨u, n, e, none, pt⟩ := by
    simp [main, mainBody, resolvedRepoDir, pyTruthy]
  refine ⟨by simp [process, hm], by simp [resolvedRepoDir, pyTruthy],
    by simp [resolvedRepoDir, pyTruthy], fun dd hdd pt2 => ?_⟩
  simp [resolvedRepoDir, pyTruthy, hdd]

/-- Witness for C10: a non-empty `--dest` takes the override branch. -/
theorem c10_empty_dest_override_witness :
    resolvedRepoDir envAllOk ⟨"u", "n", "e", some "d", none⟩ = .ok (envAllOk.resolve "d") :=
  (c10_empty_dest_override envAllOk "u" "n" "e" none).2.2.2 "d" (by decide) none

theorem isPrefixB_append (n r : List Char) : isPrefixB n (n ++ r) = true := by
  induction n with
  | nil => rfl
  | cons a as ih => simp [isPrefixB, ih]

theorem isInfixB_nil_left (h : List Char) : isInfixB [] h = true := by
  cases h with
  | nil => rfl
  | cons c t => simp [isInfixB, isPrefixB]

theorem isInfixB_of_append (l n r : List Char) : isInfixB n (l ++ (n ++ r)) = true := by
  induction l with
  | nil =>
    cases n with
    | nil => simpa using isInfixB_nil_left r
    | cons a as => simp [isInfixB, isPrefixB, isPrefixB_append]
  | cons c t ih => simp [isInfixB, ih]

theorem strContains_isInfixB {n h : String} (hc : strContains n h) :
    isInfixB n.data h.data = true := by
  obtain ⟨l, r, he⟩ := hc
  rw [he, List.append_assoc]
  exact isInfixB_of_append l n.data r

/-- The diagnostic message always contains the joined command line, and
contains the whitespace-stripped captured stdout/stderr whenever the
stripped text is non-empty. -/
theorem failMsg_contains (cmd : List String) (r : CmdResult) :
    strContains (joinSpace cmd) (failMsg cmd r) ∧
    (pyStrip r.stdout ≠ "" → strContains (pyStrip r.stdout) (failMsg cmd r)) ∧
    (pyStrip r.stderr ≠ "" → strContains (pyStrip r.stderr) (failMsg cmd r)) := by
  by_cases ho : pyStrip r.stdout = "" <;> by_cases he : pyStrip r.stderr = ""
  · have hm : failMsg cmd r = "Command failed: " ++ joinSpace cmd := by
      simp [failMsg, ho, he]
    rw [hm]
    exact ⟨⟨"Command failed: ".data, [], by simp [strData_append]⟩,
      fun h => absurd ho h, fun h => absurd he h⟩
  · have hm : failMsg cmd r =
        "Command failed: " ++ joinSpace cmd ++ "\nstderr:\n" ++ pyStrip r.stderr := by
      simp [failMsg, ho, he]
    rw [hm]
    refine ⟨⟨"Command failed: ".data, "\nstderr:\n".data ++ (pyStrip r.stderr).data,
        by simp [strData_append]⟩,
      fun h => absurd ho h,
      fun _ => ⟨"Command failed: ".data ++ (joinSpace cmd).data ++ "\nstderr:\n".data, [],
        by simp [strData_append]⟩⟩
  · have hm : failMsg cmd r =
        "Command failed: " ++ joinSpace cmd ++ "\nstdout:\n" ++ pyStrip r.stdout := by
      simp [failMsg, ho, he]
    rw [hm]
    refine ⟨⟨"Command failed: ".data, "\nstdout:\n".data ++ (pyStrip r.stdout).data,
        by simp [strData_append]⟩,
      fun _ => ⟨"Command failed: ".data ++ (joinSpace cmd).data ++ "\nstdout:\n".data, [],
        by simp [strData_append]⟩,
      fun h => absurd he h⟩
  · have hm : failMsg cmd r =
        "Command failed: " ++ joinSpace cmd ++ "\nstdout:\n" ++ pyStrip r.stdout ++
          "\nstderr:\n" ++ pyStrip r.stderr := by
      simp [failMsg, ho, he]
    rw [hm]
    refine ⟨⟨"Command failed: ".data,
        "\nstdout:\n".data ++ (pyStrip r.stdout).data ++ "\nstderr:\n".data ++
          (pyStrip r.stderr).data, by simp [strData_append]⟩,
      fun _ => ⟨"Command failed: ".data ++ (joinSpace cmd).data ++ "\nstdout:\n".data,
        "\nstderr:\n".data ++ (pyStrip r.stderr).data, by simp [strData_append]⟩,
      fun _ => ⟨"Command failed: ".data ++ (joinSpace cmd).data ++ "\nstdout:\n".data ++
          (pyStrip r.stdout).data ++ "\nstderr:\n".data, [], by simp [strData_append]⟩⟩

theorem isPrefixB_exists : ∀ (n h : List Char), isPrefixB n h = true → ∃ r, h = n ++ r
  | [], h, _ => ⟨h, rfl⟩
  | a :: as, [], hp => by simp [isPrefixB] at hp
  | a :: as, b :: bs, hp => by
    have hab : a = b := by
      have := (Bool.and_eq_true _ _).mp hp
      exact eq_of_beq this.1
    obtain ⟨r, hr⟩ := isPrefixB_exists as bs ((Bool.and_eq_true _ _).mp hp).2
    exact ⟨r, by rw [hab, hr]; rfl⟩

theorem isInfixB_exists : ∀ (n h : List Char), isInfixB n h = true → ∃ l r, h = l ++ (n ++ r)
  | n, [], hb => by
    have : n = [] := by simpa [isInfixB, List.isEmpty_iff] using hb
    exact ⟨[], [], by simp [this]⟩
  | n, c :: t, hb => by
    rcases (Bool.or_eq_true _ _).mp (by simpa [isInfixB] using hb) with hpre | htail
    · obtain ⟨r, hr⟩ := isPrefixB_exists n (c :: t) hpre
      exact ⟨[], r, by simp [hr]⟩
    · obtain ⟨l, r, hlr⟩ := isInfixB_exists n t htail
      exact ⟨c :: l, r, by simp [hlr]⟩

/-- The Boolean substring test agrees with the substring relation. -/
theorem strContains_iff_strContainsB (n h : String) :
    strContains n h ↔ strContainsB n h = true := by
  constructor
  · exact strContains_isInfixB
  · intro hb
    obtain ⟨l, r, hlr⟩ := isInfixB_exists n.data h.data hb
    exact ⟨l, r, by rw [hlr, List.append_assoc]⟩

/-- A concrete environment whose external commands fail with exit status 1
and raw stdout text `"out\n"`. -/
def envCmdFails : Env :=
  ⟨fun _ => true, fun _ => false, fun _ _ => ⟨1, "out\n", ""⟩, fun s => "/w/" ++ s⟩

/-- C8, counterexample to the claim as stated.  The claim says the raised
message contains the captured standard output text whenever it is
non-empty.  The code strips leading/trailing whitespace before embedding
it: for captured stdout `"out\n"` (non-empty) the raised message is
`Command failed: x` + `\nstdout:\nout`, which does not contain the
captured text `"out\n"` as a substring. -/
theorem c8_counterexample :
    (envCmdFails.exec ["x"] none).returncode = 1 ∧
    (envCmdFails.exec ["x"] none).stdout = "out\n" ∧
    run envCmdFails ["x"] none [] =
      (.error (.runtimeError "Command failed: x\nstdout:\nout"), [.exec ["x"] none]) ∧
    strContainsB "out\n" "Command failed: x\nstdout:\nout" = false := by decide

/-- C8 (amended): an external invocation with exit status 0 raises no
error; one with non-zero exit status raises a `RuntimeError` whose
message contains the full (space-joined) command line, and contains the
whitespace-stripped captured stdout whenever that stripped text is
non-empty, and likewise for stderr. -/
theorem c8_failure_diagnostics (env : Env) (cmd : List String) (cwd : Option String)
    (evs : List Event) :
    ((env.exec cmd cwd).returncode = 0 →
      run env cmd cwd evs = (.ok (), evs ++ [.exec cmd cwd])) ∧
    ((env.exec cmd cwd).returncode ≠ 0 →
      run env cmd cwd evs =
        (.error (.runtimeError (failMsg cmd (env.exec cmd cwd))), evs ++ [.exec cmd cwd]) ∧
      strContains (joinSpace cmd) (failMsg cmd (env.exec cmd cwd)) ∧
      (pyStrip (env.exec cmd cwd).stdout ≠ "" →
        strContains (pyStrip (env.exec cmd cwd).stdout) (failMsg cmd (env.exec cmd cwd))) ∧
      (pyStrip (env.exec cmd cwd).stderr ≠ "" →
        strContains (pyStrip (env.exec cmd cwd).stderr) (failMsg cmd (env.exec cmd cwd)))) := by
  refine ⟨fun h0 => by simp [run, h0], fun hn => ⟨by simp [run, hn], failMsg_contains cmd _⟩⟩

/-- Witness for C8 at a concrete failing command with non-empty streams. -/
theorem c8_failure_diagnostics_witness :
    run envCmdFails ["git", "clone"] none [] =
      (.error (.runtimeError (failMsg ["git", "clone"] (envCmdFails.exec ["git", "clone"] none))),
       [.exec ["git", "clone"] none]) ∧
    strContains (pyStrip (envCmdFails.exec ["git", "clone"] none).stdout)
      (failMsg ["git", "clone"] (envCmdFails.exec ["git", "clone"] none)) := by
  have h := (c8_failure_diagnostics envCmdFails ["git", "clone"] none []).2 (by decide)
  exact ⟨h.1, h.2.2.1 (by decide)⟩

/-- C3: the process exit status is always 0 or 1, and it is 0 exactly
when every step succeeds: both tools are found on the search path, the
destination resolves (derivation, including the URL parser's authority
validation, succeeds — or an override is given), the destination does not
already exist, and every issued external command exits 0.  Consequently
each enumerated failure (tool missing, derivation failure — also a parse
failure such as `Invalid IPv6 URL`, which exits 1 via the
unhandled-exception path — pre-existing destination, non-zero external
command) yields exit status 1.  The hypothesis `hnet` scopes the claim to
locators with an ASCII authority, on which the URL-parse model is exact
(the parser's NFKC check concerns only non-ASCII authorities and is not
modelled); it is why the theorem may read the model's parse outcome as
the program's.  (Usage errors are handled by argparse before `main` runs
and are outside the claim's enumeration.) -/
theorem c3_exit_codes (env : Env) (args : Args)
    (hnet : pyIsAsciiL (urlNetloc args.repo_url) = true) :
    ((process env args).1 = 0 ∨ (process env args).1 = 1) ∧
    ((process env args).1 = 0 ↔
      env.which "git" = true ∧ env.which "pdm" = true ∧
      ∃ d, resolvedRepoDir env args = .ok d ∧ env.pathExists d = false ∧
        allStepsSucceed env args d) := by
  by_cases hg : env.which "git" = true
  case neg =>
    have hg2 : env.which "git" = false := by simpa using hg
    have h1 : (process env args).1 = 1 := by simp [process, main, ensure_tool, hg2]
    exact ⟨Or.inr h1, by rw [h1]; simp [hg2]⟩
  case pos =>
  by_cases hp : env.which "pdm" = true
  case neg =>
    have hp2 : env.which "pdm" = false := by simpa using hp
    have h1 : (process env args).1 = 1 := by simp [process, main, ensure_tool, hg, hp2]
    exact ⟨Or.inr h1, by rw [h1]; simp [hp2]⟩
  case pos =>
  cases hr : resolvedRepoDir env args with
  | error e =>
    have h1 : (process env args).1 = 1 := by simp [process, main, ensure_tool, hg, hp, hr]
    refine ⟨Or.inr h1, ?_⟩
    rw [h1]
    simp only [show (1 : Int) = 0 ↔ False by norm_num, false_iff]
    rintro ⟨-, -, d', hd', -⟩
    exact absurd hd' (by simp)
  | ok d =>
  by_cases hex : env.pathExists d = true
  case pos =>
    have h1 : (process env args).1 = 1 := by
      simp [process, main, ensure_tool, hg, hp, hr, mainBody, clone_repo, hex, topHandler]
    refine ⟨Or.inr h1, ?_⟩
    rw [h1]
    simp only [show (1 : Int) = 0 ↔ False by norm_num, false_iff]
    rintro ⟨-, -, d', hd', hex', -⟩
    injection hd' with hdd
    subst hdd
    rw [hex] at hex'
    exact absurd hex' (by simp)
  case neg =>
  have hex2 : env.pathExists d = false := by simpa using hex
  by_cases h5 : (env.exec (cloneCmd args.repo_url d) none).returncode = 0
  case neg =>
    have h1 : (process env args).1 = 1 := by
      simp [process, main, ensure_tool, hg, hp, hr, mainBody, clone_repo, hex2,
        topHandler, h5]
    refine ⟨Or.inr h1, ?_⟩
    rw [h1]
    simp only [show (1 : Int) = 0 ↔ False by norm_num, false_iff]
    rintro ⟨-, -, d', hd', -, hall⟩
    injection hd' with hdd
    subst hdd
    exact absurd hall.1 h5
  case pos =>
  by_cases h6 : (env.exec coreBareCmd (some d)).returncode = 0
  case neg =>
    have h1 : (process env args).1 = 1 := by
      simp [process, main, ensure_tool, hg, hp, hr, mainBody, clone_repo, hex2,
        topHandler, h5, h6]
    refine ⟨Or.inr h1, ?_⟩
    rw [h1]
    simp only [show (1 : Int) = 0 ↔ False by norm_num, false_iff]
    rintro ⟨-, -, d', hd', -, hall⟩
    injection hd' with hdd
    subst hdd
    exact absurd hall.2.1 h6
  case pos =>
  by_cases h7 : (env.exec checkoutCmd (some d)).returncode = 0
  case neg =>
    have h1 : (process env args).1 = 1 := by
      simp [process, main, ensure_tool, hg, hp, hr, mainBody, clone_repo, hex2,
        topHandler, h5, h6, h7]
    refine ⟨Or.inr h1, ?_⟩
    rw [h1]
    simp only [show (1 : Int) = 0 ↔ False by norm_num, false_iff]
    rintro ⟨-, -, d', hd', -, hall⟩
    injection hd' with hdd
    subst hdd
    exact absurd hall.2.2.1 h7
  case pos =>
  by_cases h8 : (env.exec (cfgNameCmd args.user_name) (some d)).returncode = 0
  case neg =>
    have h1 : (process env args).1 = 1 := by
      simp [process, main, ensure_tool, hg, hp, hr, mainBody, clone_repo,
        set_git_config, hex2, topHandler, h5, h6, h7, h8]
    refine ⟨Or.inr h1, ?_⟩
    rw [h1]
    simp only [show (1 : Int) = 0 ↔ False by norm_num, false_iff]
    rintro ⟨-, -, d', hd', -, hall⟩
    injection hd' with hdd
    subst hdd
    exact absurd hall.2.2.2.1 h8
  case pos =>
  by_cases h9 : (env.exec (cfgEmailCmd args.user_email) (some d)).returncode = 0
  case neg =>
    have h1 : (process env args).1 = 1 := by
      simp [process, main, ensure_tool, hg, hp, hr, mainBody, clone_repo,
        set_git_config, hex2, topHandler, h5, h6, h7, h8, h9]
    refine ⟨Or.inr h1, ?_⟩
    rw [h1]
    simp only [show (1 : Int) = 0 ↔ False by norm_num, false_iff]
    rintro ⟨-, -, d', hd', -, hall⟩
    injection hd' with hdd
    subst hdd
    exact absurd hall.2.2.2.2.1 h9
  case pos =>
  by_cases h10 : (env.exec pdmInstallCmd (some d)).returncode = 0
  case neg =>
    have h1 : (process env args).1 = 1 := by
      simp [process, main, ensure_tool, hg, hp, hr, mainBody, clone_repo,
        set_git_config, run_pdm_install, hex2, topHandler, h5, h6, h7, h8, h9, h10]
    refine ⟨Or.inr h1, ?_⟩
    rw [h1]
    simp only [show (1 : Int) = 0 ↔ False by norm_num, false_iff]
    rintro ⟨-, -, d', hd', -, hall⟩
    injection hd' with hdd
    subst hdd
    exact absurd hall.2.2.2.2.2.1 h10
  case pos =>
  by_cases hpt : pyTruthy args.push_to = true
  case neg =>
    have hpt2 : pyTruthy args.push_to = false := by simpa using hpt
    have h0 : (process env args).1 = 0 := by
      simp [process, main, ensure_tool, hg, hp, hr, mainBody, clone_repo,
        set_git_config, run_pdm_install, hex2, h5, h6, h7, h8, h9, h10, hpt2]
    refine ⟨Or.inl h0, ?_⟩
    rw [h0]
    simp only [show (0 : Int) = 0 ↔ True by norm_num, true_iff]
    exact ⟨hg, hp, d, rfl, hex2, h5, h6, h7, h8, h9, h10,
      fun hc => absurd hc (by simp [hpt2])⟩
  case pos =>
  by_cases h11 : (env.exec (remoteAddCmd (args.push_to.getD "")) (some d)).returncode = 0
  case neg =>
    have h1 : (process env args).1 = 1 := by
      simp [process, main, ensure_tool, hg, hp, hr, mainBody, clone_repo,
        set_git_config, run_pdm_install, push_to_github, hex2, topHandler,
        h5, h6, h7, h8, h9, h10, hpt, h11]
    refine ⟨Or.inr h1, ?_⟩
    rw [h1]
    simp only [show (1 : Int) = 0 ↔ False by norm_num, false_iff]
    rintro ⟨-, -, d', hd', -, hall⟩
    injection hd' with hdd
    subst hdd
    exact absurd (hall.2.2.2.2.2.2 hpt).1 h11
  case pos =>
  by_cases h12 : (env.exec pushHeadsCmd (some d)).returncode = 0
  case neg =>
    have h1 : (process env args).1 = 1 := by
      simp [process, main, ensure_tool, hg, hp, hr, mainBody, clone_repo,
        set_git_config, run_pdm_install, push_to_github, hex2, topHandler,
        h5, h6, h7, h8, h9, h10, hpt, h11, h12]
    refine ⟨Or.inr h1, ?_⟩
    rw [h1]
    simp only [show (1 : Int) = 0 ↔ False by norm_num, false_iff]
    rintro ⟨-, -, d', hd', -, hall⟩
    injection hd' with hdd
    subst hdd
    exact absurd (hall.2.2.2.2.2.2 hpt).2.1 h12
  case pos =>
  by_cases h13 : (env.exec pushTagsCmd (some d)).returncode = 0
  case neg =>
    have h1 : (process env args).1 = 1 := by
      simp [process, main, ensure_tool, hg, hp, hr, mainBody, clone_repo,
        set_git_config, run_pdm_install, push_to_github, hex2, topHandler,
        h5, h6, h7, h8, h9, h10, hpt, h11, h12, h13]
    refine ⟨Or.inr h1, ?_⟩
    rw [h1]
    simp only [show (1 : Int) = 0 ↔ False by norm_num, false_iff]
    rintro ⟨-, -, d', hd', -, hall⟩
    injection hd' with hdd
    subst hdd
    exact absurd (hall.2.2.2.2.2.2 hpt).2.2 h13
  case pos =>
  have h0 : (process env args).1 = 0 := by
    simp [process, main, ensure_tool, hg, hp, hr, mainBody, clone_repo,
      set_git_config, run_pdm_install, push_to_github, hex2,
      h5, h6, h7, h8, h9, h10, hpt, h11, h12, h13]
  refine ⟨Or.inl h0, ?_⟩
  rw [h0]
  simp only [show (0 : Int) = 0 ↔ True by norm_num, true_iff]
  exact ⟨hg, hp, d, rfl, hex2, h5, h6, h7, h8, h9, h10, fun _ => ⟨h11, h12, h13⟩⟩

/-- Witness for C3 at the concrete cooperative environment. -/
theorem c3_exit_codes_witness :
    (process envAllOk argsC1).1 = 0 :=
  (c3_exit_codes envAllOk argsC1 (by decide)).2.mpr
    ⟨rfl, rfl, "/w/p", by decide, rfl, rfl, rfl, rfl, rfl, rfl, rfl,
      fun _ => ⟨rfl, rfl, rfl⟩⟩

end CloneSetup
